import Mathlib

/-!
Verification of the saveload deserialization layer of an ECS runtime
(src/src/saveload/de.rs), against its natural-language specification.

The deserialize pipeline of de.rs is embedded shallowly:

* the component storages in scope are a list of partial maps from entity
  index to component value (`Stor`), processed slot by slot exactly as the
  deserialize_components macro does;
* stateful Rust code threading mutable borrows of the entity allocator,
  the marker storage and the marker mapping is embedded as explicit state
  passing of an `IdsState`; fallible code returns `Except SaveError`,
  with the state always returned alongside the result, because Rust
  mutations through mutable borrows persist even when an error is
  propagated (no rollback);
* the entity allocator and the marker allocator (identity layer) are not
  part of the given source tree, so they are modelled from the
  specification (sections 3, 4.3 and 4.6), as marked on each definition.
-/

set_option autoImplicit false

namespace SpecsSaveload

/-- An entity handle: a slot index paired with a generation (spec section 3).
A handle is valid only while its generation matches the allocator's current
generation for that index. -/
structure Entity where
  id : Nat
  gen : Nat
deriving DecidableEq, Repr

/-- Modelled from the spec: the entity allocator (`EntitiesRes`), whose source
(world module) is not under src/. Spec section 4.3: it owns the slot table and
generation counters; `create` reuses a retired slot if one exists (bumping its
generation) or else extends the table. -/
structure EntitiesRes where
  nextId : Nat
  freeList : List Nat
  generation : Nat → Nat
  alive : Nat → Bool

/-- An entity handle is live iff its slot is live and its generation matches
the allocator's current generation for that slot (spec section 3). -/
def EntitiesRes.is_alive (er : EntitiesRes) (e : Entity) : Bool :=
  er.alive e.id && decide (er.generation e.id = e.gen)

/-- Modelled from the spec: `create` (spec section 4.3) reuses a retired slot
if one exists, bumping its generation, else extends the table; returns a fresh
live handle. -/
def EntitiesRes.create (er : EntitiesRes) : Entity × EntitiesRes :=
  match er.freeList with
  | i :: rest =>
    (⟨i, er.generation i + 1⟩,
      { er with
          freeList := rest,
          generation := fun j => if j = i then er.generation i + 1 else er.generation j,
          alive := fun j => if j = i then true else er.alive j })
  | [] =>
    (⟨er.nextId, er.generation er.nextId⟩,
      { er with
          nextId := er.nextId + 1,
          alive := fun j => if j = er.nextId then true else er.alive j })

/-- The errors that can surface from a deserialize call: a stale marker
mapping (spec section 7), a record whose component tuple does not have one
slot per storage in scope (rejected by the decoding of the fixed-arity tuple),
and a failed component conversion (`ConversionError`). -/
inductive SaveError where
  | staleMarkerMapping
  | invalidLength
  | conversion
deriving DecidableEq, Repr

/-- The state threaded through marker resolution: the entity allocator, the
marker component storage (entity index to marker), and the identity layer's
marker-to-entity mapping table. In de.rs this is the triple of mutable borrows
(`entities`, `markers`, `allocator`) held by `DeserializeEntity`. -/
structure IdsState where
  entities : EntitiesRes
  markers : Nat → Option Nat
  alloc : List (Nat × Entity)

/-- Lookup of a marker in the identity layer's mapping table. -/
def assocLookup (m : Nat) : List (Nat × Entity) → Option Entity
  | [] => none
  | (k, e) :: rest => if k = m then some e else assocLookup m rest

/-- Modelled from the spec: `MarkerAllocator::get_or_create` (saveload/marker.rs
is not under src/). Spec section 4.6: if the marker is already mapped, return
its Entity, failing with a stale-mapping error if that entity has since been
retired; otherwise allocate a new Entity, record the marker on it, register
the mapping, and return it. The state is returned in every case. -/
def get_or_create (m : Nat) (s : IdsState) : Except SaveError Entity × IdsState :=
  match assocLookup m s.alloc with
  | some e =>
    if s.entities.is_alive e then (.ok e, s)
    else (.error .staleMarkerMapping, s)
  | none =>
    (.ok s.entities.create.1,
      { entities := s.entities.create.2,
        markers := fun j => if j = s.entities.create.1.id then some m else s.markers j,
        alloc := (m, s.entities.create.1) :: s.alloc })

/-- The shape of a marker-resolution callback handed to component conversion:
given a marker it yields an optional Entity, threading (and possibly
mutating) the identity-layer state; failure of the underlying allocator is
surfaced. This is the Lean shape of the Rust `FnMut(M) -> Option<Entity>`
borrowing the allocator mutably. -/
abbrev IdsFun := Nat → IdsState → Except SaveError (Option Entity) × IdsState

/-- Model of the resolution callback built at src/src/saveload/de.rs line 86:
`let ids = |marker| Some(allocator.get_or_create(marker, entities, markers))`.
It always wraps the allocator's answer in `some`. -/
def ids_closure : IdsFun := fun m s =>
  match get_or_create m s with
  | (.ok e, s') => (.ok (some e), s')
  | (.error err, s') => (.error err, s')

/-- Modelled from the spec: a component storage (spec sections 3 and 4.2) is a
presence-tracked partial map from entity index to component value; this is the
write-capability surface (`GenericWriteStorage`) the deserializer uses. -/
abbrev Stor (C : Type) := Nat → Option C

/-- Storage insert: insert-or-replace the value at an entity index. -/
def storInsert {C : Type} (st : Stor C) (i : Nat) (c : C) : Stor C :=
  fun j => if j = i then some c else st j

/-- Storage remove: clear the value at an entity index. -/
def storRemove {C : Type} (st : Stor C) (i : Nat) : Stor C :=
  fun j => if j = i then none else st j

/-- The shape of a component conversion (`FromDeserialize::from` of de.rs
lines 107-121): from a deserialized data representation and a
marker-resolution callback, produce the component or an error. The identity
state is threaded because in the deserialize pipeline the callback mutates the
allocator. -/
abbrev FromFun (D C : Type) := D → IdsFun → IdsState → Except SaveError C × IdsState

/-- Model of the deserialize_components macro body `deserialize_entity`
(de.rs lines 231-253): walk the storage tuple and the record's component
tuple slot by slot, in order; a present payload is converted (with the
resolution callback) and inserted, an absent payload removes the component;
a conversion error returns immediately, leaving the slots already processed
in place. The mismatched-length case cannot arise from the Rust tuple types;
the decoding of a wrongly shaped tuple fails, modelled by `invalidLength`. -/
def deserialize_entity {D C : Type} (entity : Entity) :
    List (FromFun D C) → List (Stor C) → List (Option D) → IdsState →
    Except SaveError Unit × List (Stor C) × IdsState
  | f :: fs, st :: sts, comp :: cs, s =>
    match comp with
    | some d =>
      match f d ids_closure s with
      | (.ok c, s') =>
        let r := deserialize_entity entity fs sts cs s'
        (r.1, storInsert st entity.id c :: r.2.1, r.2.2)
      | (.error e, s') => (.error e, st :: sts, s')
    | none =>
      let r := deserialize_entity entity fs sts cs s
      (r.1, storRemove st entity.id :: r.2.1, r.2.2)
  | [], [], [], s => (.ok (), [], s)
  | _, sts, _, s => (.error .invalidLength, sts, s)

/-- The persisted per-entity record (saveload `EntityData`, used at de.rs
line 82; its logical shape is spec section 6): an integer marker and one
optional payload slot per component storage in scope, in storage order. -/
structure EntityData (D : Type) where
  marker : Nat
  components : List (Option D)
deriving Repr

/-- The full deserializer state: the identity-layer state plus the tuple of
write storages in scope. -/
structure DeState (C : Type) where
  ids : IdsState
  storages : List (Stor C)

/-- Model of `DeserializeEntity::deserialize` (de.rs lines 71-91) applied to
one already-decoded record: resolve or create the record's entity from its
marker via `get_or_create`, then apply the record's component tuple with
`deserialize_entity`, passing the line-86 resolution callback. Errors are
surfaced; the state reached so far is kept. -/
def deserialize_one {D C : Type} (froms : List (FromFun D C)) (r : EntityData D)
    (w : DeState C) : Except SaveError Unit × DeState C :=
  match get_or_create r.marker w.ids with
  | (.ok entity, s') =>
    let res := deserialize_entity entity froms w.storages r.components s'
    (res.1, ⟨res.2.2, res.2.1⟩)
  | (.error e, s') => (.error e, ⟨s', w.storages⟩)

/-- Model of `VisitEntities::visit_seq` (de.rs lines 191-208): consume the
sequence of records one at a time, applying each in full before reading the
next; stop at the first error, returning it, with all effects up to that
point kept; succeed exactly when the end of the sequence is reached. -/
def visit_seq {D C : Type} (froms : List (FromFun D C)) :
    List (EntityData D) → DeState C → Except SaveError Unit × DeState C
  | [], w => (.ok (), w)
  | r :: rs, w =>
    match deserialize_one froms r w with
    | (.ok _, w') => visit_seq froms rs w'
    | (.error e, w') => (.error e, w')

/-- Model of `DeserializeComponents::deserialize` (de.rs lines 35-52): it
hands the sequence to the `VisitEntities` visitor. -/
def deserialize' {D C : Type} (froms : List (FromFun D C))
    (records : List (EntityData D)) (w : DeState C) :
    Except SaveError Unit × DeState C :=
  visit_seq froms records w

/-- The error type of the blanket `FromDeserialize` impl (`NoError`):
uninhabited, a conversion with this error type cannot fail. -/
inductive NoError
deriving DecidableEq

/-- Model of the blanket `FromDeserialize` impl for a component that is
itself deserializable (de.rs lines 123-134): its data representation is the
component itself, the resolution callback is ignored, and the result is
always `Ok(data)`. -/
def blanket_from {C : Type} (data : C) (_ids : Nat → Option Entity) :
    Except NoError C :=
  .ok data

/-- The blanket conversion as it participates in the deserialize pipeline:
the data is the component itself, the callback and state are untouched. -/
def blanket_fromFun (D : Type) : FromFun D D := fun d _ s => (.ok d, s)

/-- Modelled from the spec: the scenario component of spec section 8, holding
one optional reference to another entity by marker; during decode the marker
is rewritten to a live handle through the resolution callback (spec
section 4.7). -/
def refFrom : FromFun (Option Nat) (Option Entity) := fun d ids s =>
  match d with
  | none => (.ok none, s)
  | some m =>
    match ids m s with
    | (.ok (some e), s') => (.ok (some e), s')
    | (.ok none, s') => (.error .conversion, s')
    | (.error err, s') => (.error err, s')

/-- Model of the deserialize_components macro recursion (de.rs lines
211-262): invoked on a list of component/storage name pairs, the main rule
generates a `DeserializeComponents` impl for the tuple of that arity and
recurses on the tail (`@pop`); the recursion ends by invoking the main rule
with zero pairs, which still matches it with zero repetitions and emits the
impl for the empty tuple. So there is one impl per suffix of the argument
list, the empty suffix included. This function collects the arities of the
generated impls. -/
def deserialize_components_arities : List (String × String) → List Nat
  | [] => [0]
  | _ :: tail => (tail.length + 1) :: deserialize_components_arities tail

/-- The actual invocation of the macro at de.rs lines 264-273: eight
component/storage name pairs. -/
def deserialize_components_invocation : List (String × String) :=
  [("CA", "SA"), ("CB", "SB"), ("CC", "SC"), ("CD", "SD"),
   ("CE", "SE"), ("CF", "SF"), ("CG", "SG"), ("CH", "SH")]

/-- The empty identity state: no entities, no markers, no mappings. -/
def emptyIds : IdsState :=
  { entities := { nextId := 0, freeList := [], generation := fun _ => 0, alive := fun _ => false },
    markers := fun _ => none,
    alloc := [] }

/-- An identity state whose mapping table maps marker 1 to an entity handle
whose slot has been retired (slot 0 is not alive): a stale mapping. -/
def staleIds : IdsState :=
  { entities := { nextId := 1, freeList := [], generation := fun _ => 0, alive := fun _ => false },
    markers := fun _ => none,
    alloc := [(1, ⟨0, 0⟩)] }

/-- A one-storage deserializer state over `staleIds`. -/
def wStale : DeState (Option Entity) := ⟨staleIds, [fun _ => none]⟩

/-- An identity state with marker 3 mapped to the live entity handle (0, 0). -/
def mappedIds : IdsState :=
  { entities := { nextId := 1, freeList := [], generation := fun _ => 0,
                  alive := fun j => j = 0 },
    markers := fun j => if j = 0 then some 3 else none,
    alloc := [(3, ⟨0, 0⟩)] }

/-- A storage holding a pre-existing component value at every index, used to
exhibit that applying a record replaces or removes pre-existing values. -/
def preStor : Stor Nat := fun _ => some 99

/-- The record sequence of the spec's forward-reference scenario
(spec section 8): first the record of marker 2 whose component references
marker 1, then the record of marker 1 with an empty reference. -/
def c3Records : List (EntityData (Option Nat)) :=
  [⟨2, [some (some 1)]⟩, ⟨1, [some none]⟩]

/-- A fresh one-storage world for the forward-reference scenario. -/
def c3World : DeState (Option Entity) := ⟨emptyIds, [fun _ => none]⟩

/-! ## Lemmas about the embedded operations -/

theorem deserialize_entity_nil {D C : Type} (ent : Entity) (s : IdsState) :
    deserialize_entity ent ([] : List (FromFun D C)) [] [] s = (.ok (), [], s) := rfl

theorem deserialize_entity_cons_none {D C : Type} (ent : Entity) (f : FromFun D C)
    (fs : List (FromFun D C)) (st : Stor C) (sts : List (Stor C))
    (cs : List (Option D)) (s : IdsState) :
    deserialize_entity ent (f :: fs) (st :: sts) (none :: cs) s =
      ((deserialize_entity ent fs sts cs s).1,
       storRemove st ent.id :: (deserialize_entity ent fs sts cs s).2.1,
       (deserialize_entity ent fs sts cs s).2.2) := rfl

theorem deserialize_entity_cons_some {D C : Type} (ent : Entity) (f : FromFun D C)
    (fs : List (FromFun D C)) (st : Stor C) (sts : List (Stor C)) (d : D)
    (cs : List (Option D)) (s : IdsState) :
    deserialize_entity ent (f :: fs) (st :: sts) (some d :: cs) s =
      match f d ids_closure s with
      | (.ok c, s') =>
        ((deserialize_entity ent fs sts cs s').1,
         storInsert st ent.id c :: (deserialize_entity ent fs sts cs s').2.1,
         (deserialize_entity ent fs sts cs s').2.2)
      | (.error e, s') => (.error e, st :: sts, s') := rfl

theorem deserialize_entity_surplus_comps {D C : Type} (ent : Entity) (c : Option D)
    (cs : List (Option D)) (s : IdsState) :
    deserialize_entity ent ([] : List (FromFun D C)) [] (c :: cs) s =
      (.error .invalidLength, [], s) := rfl

theorem deserialize_entity_missing_comps {D C : Type} (ent : Entity) (f : FromFun D C)
    (fs : List (FromFun D C)) (st : Stor C) (sts : List (Stor C)) (s : IdsState) :
    deserialize_entity ent (f :: fs) (st :: sts) [] s =
      (.error .invalidLength, st :: sts, s) := rfl

theorem assocLookup_cons_self (m : Nat) (e : Entity) (al : List (Nat × Entity)) :
    assocLookup m ((m, e) :: al) = some e := by
  simp [assocLookup]

theorem EntitiesRes.create_is_alive (er : EntitiesRes) :
    er.create.2.is_alive er.create.1 = true := by
  unfold EntitiesRes.create
  cases h : er.freeList with
  | nil => simp [EntitiesRes.is_alive]
  | cons i rest => simp [EntitiesRes.is_alive]

/-- After a successful `get_or_create`, the marker is mapped to the returned
entity and that entity is live in the resulting state. -/
theorem get_or_create_ok_state (m : Nat) (s : IdsState) (e : Entity) (s' : IdsState)
    (h : get_or_create m s = (.ok e, s')) :
    assocLookup m s'.alloc = some e ∧ s'.entities.is_alive e = true := by
  unfold get_or_create at h
  cases hl : assocLookup m s.alloc with
  | some e0 =>
    rw [hl] at h
    by_cases ha : s.entities.is_alive e0 = true
    · simp only [ha, if_true] at h
      obtain ⟨rfl, rfl⟩ : e0 = e ∧ s = s' := by simpa using h
      exact ⟨hl, ha⟩
    · simp [ha] at h
  | none =>
    rw [hl] at h
    obtain ⟨rfl, rfl⟩ :
        s.entities.create.1 = e ∧
          ({ entities := s.entities.create.2,
             markers := fun j =>
               if j = s.entities.create.1.id then some m else s.markers j,
             alloc := (m, s.entities.create.1) :: s.alloc } : IdsState) = s' := by
      simpa using h
    refine ⟨assocLookup_cons_self .., ?_⟩
    exact EntitiesRes.create_is_alive s.entities

/-! ## Claims -/

/-- Claim C4: within one deserialization pass, `get_or_create` is idempotent:
a second call with the same marker returns the same Entity and leaves the
state unchanged, so no second entity is allocated. -/
theorem get_or_create_idempotent (m : Nat) (s : IdsState) (e : Entity) (s' : IdsState)
    (h : get_or_create m s = (.ok e, s')) :
    get_or_create m s' = (.ok e, s') := by
  obtain ⟨hl, ha⟩ := get_or_create_ok_state m s e s' h
  unfold get_or_create
  rw [hl]
  simp [ha]

/-- Witness for C4 at a concrete input: creating the entity of marker 5 in
the empty state and asking again returns the same entity and state. -/
theorem get_or_create_idempotent_witness :
    get_or_create 5 emptyIds = (.ok ⟨0, 0⟩, (get_or_create 5 emptyIds).2) ∧
    get_or_create 5 ((get_or_create 5 emptyIds).2) =
      (.ok ⟨0, 0⟩, (get_or_create 5 emptyIds).2) :=
  ⟨rfl, get_or_create_idempotent 5 emptyIds ⟨0, 0⟩ _ rfl⟩

/-- Claim C5: for a marker already mapped by the identity layer,
`get_or_create` returns the mapped Entity when it is still live, and fails
with the surfaced stale-marker-mapping error, without allocating a
replacement (the state is unchanged), when the mapped entity has been
retired. -/
theorem get_or_create_mapped (m : Nat) (s : IdsState) (e : Entity)
    (hm : assocLookup m s.alloc = some e) :
    (s.entities.is_alive e = true → get_or_create m s = (.ok e, s)) ∧
    (s.entities.is_alive e = false →
      get_or_create m s = (.error .staleMarkerMapping, s)) := by
  unfold get_or_create
  rw [hm]
  constructor
  · intro h
    simp [h]
  · intro h
    simp [h]

/-- Witness for C5 at a concrete input: in `mappedIds` marker 3 is mapped to
the live entity (0, 0) and is returned; in `staleIds` marker 1 is mapped to
the retired entity (0, 0) and the stale-mapping error is surfaced. -/
theorem get_or_create_mapped_witness :
    assocLookup 3 mappedIds.alloc = some ⟨0, 0⟩ ∧
    get_or_create 3 mappedIds = (.ok ⟨0, 0⟩, mappedIds) ∧
    assocLookup 1 staleIds.alloc = some ⟨0, 0⟩ ∧
    get_or_create 1 staleIds = (.error .staleMarkerMapping, staleIds) :=
  ⟨rfl, (get_or_create_mapped 3 mappedIds ⟨0, 0⟩ rfl).1 rfl,
   rfl, (get_or_create_mapped 1 staleIds ⟨0, 0⟩ rfl).2 rfl⟩

/-- Claim C8: the resolution callback built at de.rs line 86 wraps every
answer of the allocator in `Some`: whenever it yields a value, that value is
never `none`, so the required-reference-missing conversion error is
unreachable in this deserialize path. -/
theorem ids_closure_never_none (m : Nat) (s : IdsState) (o : Option Entity)
    (s' : IdsState) (h : ids_closure m s = (.ok o, s')) : o ≠ none := by
  unfold ids_closure at h
  cases hg : get_or_create m s with
  | mk res s₂ =>
    rw [hg] at h
    cases res with
    | ok e =>
      obtain ⟨ho, _⟩ := Prod.mk.injEq .. ▸ h
      obtain rfl : some e = o := by simpa using ho
      simp
    | error err => simp at h

/-- Witness for C8 at a concrete input: resolving marker 7 in the empty
state yields `some` entity. -/
theorem ids_closure_never_none_witness :
    ids_closure 7 emptyIds = (.ok (some ⟨0, 0⟩), (ids_closure 7 emptyIds).2) ∧
    some (⟨0, 0⟩ : Entity) ≠ none :=
  ⟨rfl, ids_closure_never_none 7 emptyIds _ _ rfl⟩

/-- Claim C9: the blanket `FromDeserialize` impl for a deserializable
component uses the component itself as its data representation, ignores the
resolution callback entirely (two different callbacks give the same result),
and always returns `Ok` of the data: it can never fail, its error type being
uninhabited. -/
theorem blanket_from_trivial :
    ∀ (C : Type) (data : C) (f g : Nat → Option Entity),
      blanket_from data f = .ok data ∧
      blanket_from data f = blanket_from data g ∧
      ∀ err : NoError, blanket_from data f ≠ .error err := by
  intro C data f g
  refine ⟨rfl, rfl, ?_⟩
  intro err
  cases err

/-- Counterexample to claim C10 as stated: the macro recursion also emits an
impl for the empty storage tuple — arity 0 is among the generated arities,
and 0 is not in the range 1 through 8, so the impls are not only for arities
1 through 8. -/
theorem deserialize_components_arity_zero :
    0 ∈ deserialize_components_arities deserialize_components_invocation ∧
      ¬(1 ≤ 0 ∧ 0 ≤ 8) := by
  constructor
  · simp [deserialize_components_invocation, deserialize_components_arities]
  · simp

/-- Claim C10 (amended): the deserialize_components macro invocation
generates `DeserializeComponents` impls exactly for storage tuples of arity
0 through 8 — the `@pop` recursion ends by emitting the empty-tuple impl —
so deserializing a record covering more than 8 component storages in one
tuple is still not supported by the provided impls. -/
theorem deserialize_components_arity_at_most_eight :
    ∀ n : Nat,
      n ∈ deserialize_components_arities deserialize_components_invocation ↔
        n ≤ 8 := by
  intro n
  simp only [deserialize_components_invocation, deserialize_components_arities,
    List.length_nil, List.length_cons, List.mem_cons, List.not_mem_nil, or_false]
  norm_num
  omega

/-- The visitor's record loop composes sequentially: processing a
concatenation of record lists processes the first part fully, and continues
with the second part from the resulting state only if the first part
succeeded, otherwise it stops with the first error and the state reached. -/
theorem visit_seq_append_aux {D C : Type} (froms : List (FromFun D C))
    (l₁ l₂ : List (EntityData D)) (w : DeState C) :
    visit_seq froms (l₁ ++ l₂) w =
      match visit_seq froms l₁ w with
      | (.ok _, w') => visit_seq froms l₂ w'
      | (.error e, w') => (.error e, w') := by
  induction l₁ generalizing w with
  | nil => rfl
  | cons r rs ih =>
    show visit_seq froms (r :: (rs ++ l₂)) w = _
    cases hd : deserialize_one froms r w with
    | mk res w' =>
      cases res with
      | ok u => simp [visit_seq, hd, ih]
      | error e => simp [visit_seq, hd]

/-- Claim C6: deserialize consumes its input one record at a time: for any
split of the input, every record of the first part is resolved and fully
applied (its state effects committed) before any record of the second part
is read, and the call succeeds exactly when the end of the sequence is
reached with every record applied in order. -/
theorem visit_seq_sequential {D C : Type} (froms : List (FromFun D C))
    (l₁ l₂ : List (EntityData D)) (w : DeState C) :
    visit_seq froms (l₁ ++ l₂) w =
      match visit_seq froms l₁ w with
      | (.ok _, w') => visit_seq froms l₂ w'
      | (.error e, w') => (.error e, w') :=
  visit_seq_append_aux froms l₁ l₂ w

/-- Claim C2: if, after some records have been applied, decoding a record
fails, the whole deserialize call returns that very error; the records after
the failing one are never processed (the outcome does not depend on them)
and the effects already applied — including the partial effects of the
failing record — remain in the final state: no rollback. -/
theorem visit_seq_error_no_rollback {D C : Type} (froms : List (FromFun D C))
    (l₁ : List (EntityData D)) (r : EntityData D) (l₂ : List (EntityData D))
    (w w' w'' : DeState C) (e : SaveError)
    (hok : visit_seq froms l₁ w = (.ok (), w'))
    (herr : deserialize_one froms r w' = (.error e, w'')) :
    visit_seq froms (l₁ ++ r :: l₂) w = (.error e, w'') := by
  rw [visit_seq_append_aux froms l₁ (r :: l₂) w, hok]
  simp [visit_seq, herr]

/-- Claim C7: a record's component tuple has exactly one optional payload
slot per storage in scope, in storage order: a record whose tuple does not
have that shape is never applied successfully. -/
theorem deserialize_entity_shape {D C : Type} (ent : Entity)
    (froms : List (FromFun D C)) (stors : List (Stor C)) (comps : List (Option D))
    (s : IdsState) (hf : froms.length = stors.length)
    (hok : (deserialize_entity ent froms stors comps s).1 = .ok ()) :
    comps.length = stors.length := by
  induction froms generalizing stors comps s with
  | nil =>
    cases stors with
    | cons st sts => simp at hf
    | nil =>
      cases comps with
      | nil => rfl
      | cons c cs =>
        rw [deserialize_entity_surplus_comps] at hok
        simp at hok
  | cons f fs ih =>
    cases stors with
    | nil => simp at hf
    | cons st sts =>
      cases comps with
      | nil =>
        rw [deserialize_entity_missing_comps] at hok
        simp at hok
      | cons c cs =>
        have hf' : fs.length = sts.length := by simpa using hf
        cases c with
        | none =>
          rw [deserialize_entity_cons_none] at hok
          have := ih sts cs s hf' hok
          simpa using this
        | some d =>
          rw [deserialize_entity_cons_some] at hok
          cases hfd : f d ids_closure s with
          | mk res s' =>
            rw [hfd] at hok
            cases res with
            | ok cval =>
              have := ih sts cs s' hf' (by simpa using hok)
              simpa using this
            | error e => simp at hok

/-- Witness for C7 at a concrete input: a one-storage tuple successfully
applies a one-slot record, whose component tuple indeed has one slot. -/
theorem deserialize_entity_shape_witness :
    [blanket_fromFun Nat].length = [(fun _ => none : Stor Nat)].length ∧
    (deserialize_entity ⟨0, 0⟩ [blanket_fromFun Nat] [(fun _ => none : Stor Nat)]
        [some 5] emptyIds).1 = .ok () ∧
    [some (5 : Nat)].length = [(fun _ => none : Stor Nat)].length :=
  ⟨rfl, rfl,
   deserialize_entity_shape ⟨0, 0⟩ [blanket_fromFun Nat] [(fun _ => none : Stor Nat)]
     [some 5] emptyIds rfl rfl⟩

/-- Claim C1: applying a record to an entity is a full replacement of the
entity's component set for the storages in scope: after a successful
application, for every slot, a present payload leaves exactly the decoded
component (produced by that slot's conversion under the resolution callback)
on the entity, replacing whatever was there, and an absent payload leaves no
component of that slot's type on the entity, whatever the storages held
before. -/
theorem deserialize_entity_full_replacement {D C : Type} (ent : Entity)
    (froms : List (FromFun D C)) (stors : List (Stor C)) (comps : List (Option D))
    (s : IdsState) (hf : froms.length = stors.length)
    (hc : comps.length = stors.length)
    (hok : (deserialize_entity ent froms stors comps s).1 = .ok ()) (i : Nat) :
    (comps[i]? = some none →
      ∃ st', (deserialize_entity ent froms stors comps s).2.1[i]? = some st' ∧
        st' ent.id = none) ∧
    (∀ d : D, comps[i]? = some (some d) →
      ∃ f st' c s₁ s₂, froms[i]? = some f ∧
        f d ids_closure s₁ = (.ok c, s₂) ∧
        (deserialize_entity ent froms stors comps s).2.1[i]? = some st' ∧
        st' ent.id = some c) := by
  induction froms generalizing stors comps s i with
  | nil =>
    cases stors with
    | cons st sts => simp at hf
    | nil =>
      cases comps with
      | cons c cs => simp at hc
      | nil =>
        constructor
        · intro h; simp at h
        · intro d h; simp at h
  | cons f fs ih =>
    cases stors with
    | nil => simp at hf
    | cons st sts =>
      cases comps with
      | nil => simp at hc
      | cons c cs =>
        have hf' : fs.length = sts.length := by simpa using hf
        have hc' : cs.length = sts.length := by simpa using hc
        cases c with
        | none =>
          rw [deserialize_entity_cons_none] at hok ⊢
          have hok' : (deserialize_entity ent fs sts cs s).1 = .ok () := by
            simpa using hok
          cases i with
          | zero =>
            constructor
            · intro _
              exact ⟨storRemove st ent.id, by simp, by simp [storRemove]⟩
            · intro d h
              simp at h
          | succ n =>
            have IH := ih sts cs s hf' hc' hok' n
            constructor
            · intro h
              obtain ⟨st', h1, h2⟩ := IH.1 (by simpa using h)
              exact ⟨st', by simpa using h1, h2⟩
            · intro d h
              obtain ⟨f', st', c', s₁, s₂, h1, h2, h3, h4⟩ := IH.2 d (by simpa using h)
              exact ⟨f', st', c', s₁, s₂, by simpa using h1, h2, by simpa using h3, h4⟩
        | some d =>
          rw [deserialize_entity_cons_some] at hok ⊢
          cases hfd : f d ids_closure s with
          | mk res s' =>
            rw [hfd] at hok
            cases res with
            | error e => simp at hok
            | ok cval =>
              have hok' : (deserialize_entity ent fs sts cs s').1 = .ok () := by
                simpa using hok
              cases i with
              | zero =>
                constructor
                · intro h
                  simp at h
                · intro d' h
                  obtain rfl : d = d' := by simpa using h
                  refine ⟨f, storInsert st ent.id cval, cval, s, s', by simp, hfd,
                    ?_, by simp [storInsert]⟩
                  simp
              | succ n =>
                have IH := ih sts cs s' hf' hc' hok' n
                constructor
                · intro h
                  obtain ⟨st', h1, h2⟩ := IH.1 (by simpa using h)
                  exact ⟨st', by simpa using h1, h2⟩
                · intro d' h
                  obtain ⟨f', st', c', s₁, s₂, h1, h2, h3, h4⟩ :=
                    IH.2 d' (by simpa using h)
                  exact ⟨f', st', c', s₁, s₂, by simpa using h1, h2,
                    by simpa using h3, h4⟩

/-- Witness for C1 at a concrete input: a two-storage tuple holding a
pre-existing value 99 for the entity in both slots, applied with the record
slots (present 7, absent): the first slot ends up holding exactly 7 and the
second slot ends up empty. -/
theorem deserialize_entity_full_replacement_witness :
    [blanket_fromFun Nat, blanket_fromFun Nat].length = [preStor, preStor].length ∧
    ([some 7, none] : List (Option Nat)).length = [preStor, preStor].length ∧
    (deserialize_entity ⟨0, 0⟩ [blanket_fromFun Nat, blanket_fromFun Nat]
        [preStor, preStor] [some 7, none] emptyIds).1 = .ok () ∧
    ((([some 7, none] : List (Option Nat))[0]? = some none →
      ∃ st', (deserialize_entity ⟨0, 0⟩ [blanket_fromFun Nat, blanket_fromFun Nat]
          [preStor, preStor] [some 7, none] emptyIds).2.1[0]? = some st' ∧
        st' (0 : Nat) = none) ∧
     (∀ d : Nat, ([some 7, none] : List (Option Nat))[0]? = some (some d) →
      ∃ f st' c s₁ s₂,
        ([blanket_fromFun Nat, blanket_fromFun Nat])[0]? = some f ∧
        f d ids_closure s₁ = (.ok c, s₂) ∧
        (deserialize_entity ⟨0, 0⟩ [blanket_fromFun Nat, blanket_fromFun Nat]
            [preStor, preStor] [some 7, none] emptyIds).2.1[0]? = some st' ∧
        st' (0 : Nat) = some c)) ∧
    ((([some 7, none] : List (Option Nat))[1]? = some none →
      ∃ st', (deserialize_entity ⟨0, 0⟩ [blanket_fromFun Nat, blanket_fromFun Nat]
          [preStor, preStor] [some 7, none] emptyIds).2.1[1]? = some st' ∧
        st' (0 : Nat) = none) ∧
     (∀ d : Nat, ([some 7, none] : List (Option Nat))[1]? = some (some d) →
      ∃ f st' c s₁ s₂,
        ([blanket_fromFun Nat, blanket_fromFun Nat])[1]? = some f ∧
        f d ids_closure s₁ = (.ok c, s₂) ∧
        (deserialize_entity ⟨0, 0⟩ [blanket_fromFun Nat, blanket_fromFun Nat]
            [preStor, preStor] [some 7, none] emptyIds).2.1[1]? = some st' ∧
        st' (0 : Nat) = some c)) :=
  ⟨rfl, rfl, rfl,
   deserialize_entity_full_replacement ⟨0, 0⟩
     [blanket_fromFun Nat, blanket_fromFun Nat] [preStor, preStor]
     [some 7, none] emptyIds rfl rfl rfl 0,
   deserialize_entity_full_replacement ⟨0, 0⟩
     [blanket_fromFun Nat, blanket_fromFun Nat] [preStor, preStor]
     [some 7, none] emptyIds rfl rfl rfl 1⟩

/-- Claim C3: deserializing the two-record sequence where marker 2's record
references marker 1 before marker 1's own record has been consumed yields
two live entities, and the reference stored on marker 2's entity is exactly
the handle marker 1's entity finally has. -/
theorem forward_reference_scenario :
    (deserialize' [refFrom] c3Records c3World).1 = .ok () ∧
    assocLookup 2 (deserialize' [refFrom] c3Records c3World).2.ids.alloc =
      some ⟨0, 0⟩ ∧
    assocLookup 1 (deserialize' [refFrom] c3Records c3World).2.ids.alloc =
      some ⟨1, 0⟩ ∧
    (deserialize' [refFrom] c3Records c3World).2.ids.entities.is_alive ⟨0, 0⟩ = true ∧
    (deserialize' [refFrom] c3Records c3World).2.ids.entities.is_alive ⟨1, 0⟩ = true ∧
    ((deserialize' [refFrom] c3Records c3World).2.storages.headD (fun _ => none)) 0 =
      some (some ⟨1, 0⟩) :=
  ⟨rfl, rfl, rfl, rfl, rfl, rfl⟩

/-- Witness for C2 at a concrete input: in the stale-mapping world, the
record of marker 2 referencing marker 1 fails with the stale-mapping error;
the call on that record followed by a further record returns exactly that
error and the state reached by the failing record, and the further record is
never applied. -/
theorem visit_seq_error_no_rollback_witness :
    visit_seq [refFrom] [] wStale = (.ok (), wStale) ∧
    deserialize_one [refFrom] ⟨2, [some (some 1)]⟩ wStale =
      (.error .staleMarkerMapping,
        (deserialize_one [refFrom] ⟨2, [some (some 1)]⟩ wStale).2) ∧
    visit_seq [refFrom] ([] ++ ⟨2, [some (some 1)]⟩ :: [⟨3, [none]⟩]) wStale =
      (.error .staleMarkerMapping,
        (deserialize_one [refFrom] ⟨2, [some (some 1)]⟩ wStale).2) :=
  ⟨rfl, rfl,
   visit_seq_error_no_rollback [refFrom] [] ⟨2, [some (some 1)]⟩ [⟨3, [none]⟩]
     wStale wStale _ .staleMarkerMapping rfl rfl⟩

end SpecsSaveload
